import Mathlib

/-!
Verification of the XCred profile-intelligence engine (geo resolver,
credibility scorer, tiered cache, fetch pipeline backoff/deduplication, and
consensus validator) against its specification.

The JavaScript source is shallowly embedded: each JS function becomes an
executable Lean definition over explicit state records.  JS strings are
`String`, nullable strings are `Option String` (with JS truthiness `null` /
`""` both falsy), machine timestamps are `Int` milliseconds, and JS float
arithmetic on the small backoff quantities (exact in IEEE double for the
values involved) is `ℚ`.  A JS function that can throw is embedded as
`Except Unit _`.
-/

namespace Xcred

/-!
String operations are defined over the underlying character list
(`String.data`) so that every definition reduces inside the kernel; they
mirror the JS string methods the source uses.
-/

/-- JS emptiness test for a string. -/
def jsIsEmpty (s : String) : Bool :=
  s.data.isEmpty

/-- JS truthiness for a nullable string: `null` and `""` are falsy. -/
def jsStrTruthy : Option String → Bool
  | none => false
  | some s => !jsIsEmpty s

/-- JS `x || ''` for a nullable string. -/
def jsOrEmpty : Option String → String
  | none => ""
  | some s => s

/-- Embeds `String.prototype.toLowerCase` (ASCII case folding, which covers every
alias in the lookup tables). -/
def jsToLower (s : String) : String :=
  String.mk (s.data.map Char.toLower)

/-- Whitespace as trimmed by `String.prototype.trim`. -/
def wsChar (c : Char) : Bool :=
  c == ' ' || c == '\t' || c == '\n' || c == '\r'

/-- Embeds `String.prototype.trim`. -/
def jsTrim (s : String) : String :=
  String.mk (((s.data.dropWhile wsChar).reverse.dropWhile wsChar).reverse)

/-- Embeds `String.prototype.endsWith`. -/
def jsEndsWith (s suffix : String) : Bool :=
  suffix.data.reverse.isPrefixOf s.data.reverse

/-- Substring search on character lists: does `sub` occur contiguously in
the second argument? -/
def listContains (sub : List Char) : List Char → Bool
  | [] => sub.isEmpty
  | c :: rest => sub.isPrefixOf (c :: rest) || listContains sub rest

/-- JS `String.prototype.includes` (substring containment). -/
def jsIncludes (s sub : String) : Bool :=
  listContains sub.data s.data

/-- Association-list lookup, modelling JS object / `Map` key access. -/
def alGet {α : Type} (k : String) (l : List (String × α)) : Option α :=
  (l.find? (fun p => p.1 == k)).map (fun p => p.2)

/-- Association-list update: replace the (first) binding in place if the
key exists (JS `Map.set` keeps the original insertion position),
otherwise append. -/
def alSet {α : Type} (k : String) (v : α) :
    List (String × α) → List (String × α)
  | [] => [(k, v)]
  | p :: rest => if p.1 == k then (k, v) :: rest else p :: alSet k v rest

/-- Association-list deletion (JS `Map.delete` / IndexedDB `delete`). -/
def alDelete {α : Type} (k : String) (l : List (String × α)) :
    List (String × α) :=
  l.filter (fun p => p.1 != k)

/-! ## GeoResolver (`XLocationFlags`, src/unnamed/part_000)

`regionMapping` and `countryNameToCode` are transcribed in source order
(JS `Object.entries` iterates insertion order, which `parseLocation`
depends on).  The `emoji`/`name` fields of `regionMapping` are display-only
and not consulted by `parseLocation`/`isRegionCode`, so only the codes are
kept. -/

/-- Embeds `XLocationFlags.regionMapping`: region alias → region code. -/
def regionMapping : List (String × String) :=
  [("north america", "NA"), ("south america", "SA"), ("latin america", "LA"),
   ("europe", "EU"), ("africa", "AF"), ("asia", "AS"), ("asia pacific", "AP"),
   ("middle east", "ME"), ("oceania", "OC")]

/-- Embeds `XLocationFlags.countryNameToCode`: country alias → ISO-2 code, in
source (insertion) order. -/
def countryNameToCode : List (String × String) :=
  [("united states", "US"), ("usa", "US"), ("america", "US"),
   ("canada", "CA"), ("mexico", "MX"),
   ("united kingdom", "GB"), ("uk", "GB"), ("england", "GB"),
   ("scotland", "GB"), ("wales", "GB"), ("germany", "DE"), ("france", "FR"),
   ("italy", "IT"), ("spain", "ES"), ("portugal", "PT"),
   ("netherlands", "NL"), ("holland", "NL"), ("belgium", "BE"),
   ("switzerland", "CH"), ("austria", "AT"), ("poland", "PL"),
   ("sweden", "SE"), ("norway", "NO"), ("denmark", "DK"), ("finland", "FI"),
   ("ireland", "IE"), ("greece", "GR"), ("czech republic", "CZ"),
   ("czechia", "CZ"), ("romania", "RO"), ("hungary", "HU"),
   ("ukraine", "UA"), ("russia", "RU"), ("russian federation", "RU"),
   ("china", "CN"), ("japan", "JP"), ("south korea", "KR"), ("korea", "KR"),
   ("india", "IN"), ("indonesia", "ID"), ("thailand", "TH"),
   ("vietnam", "VN"), ("philippines", "PH"), ("malaysia", "MY"),
   ("singapore", "SG"), ("pakistan", "PK"), ("bangladesh", "BD"),
   ("taiwan", "TW"), ("hong kong", "HK"),
   ("israel", "IL"), ("saudi arabia", "SA"),
   ("united arab emirates", "AE"), ("uae", "AE"), ("turkey", "TR"),
   ("türkiye", "TR"), ("iran", "IR"), ("islamic republic of iran", "IR"),
   ("iraq", "IQ"), ("egypt", "EG"), ("qatar", "QA"), ("kuwait", "KW"),
   ("bahrain", "BH"), ("oman", "OM"), ("jordan", "JO"), ("lebanon", "LB"),
   ("syria", "SY"), ("yemen", "YE"),
   ("australia", "AU"), ("new zealand", "NZ"),
   ("brazil", "BR"), ("argentina", "AR"), ("colombia", "CO"),
   ("chile", "CL"), ("peru", "PE"), ("venezuela", "VE"),
   ("south africa", "ZA"), ("nigeria", "NG"), ("kenya", "KE"),
   ("morocco", "MA"), ("ethiopia", "ET"), ("ghana", "GH"),
   ("algeria", "DZ"), ("tunisia", "TN"), ("libya", "LY"),
   ("belarus", "BY"), ("kazakhstan", "KZ"), ("uzbekistan", "UZ"),
   ("georgia", "GE"), ("armenia", "AM"), ("azerbaijan", "AZ"),
   ("moldova", "MD"), ("serbia", "RS"), ("croatia", "HR"),
   ("bulgaria", "BG"), ("slovakia", "SK"), ("slovenia", "SI"),
   ("lithuania", "LT"), ("latvia", "LV"), ("estonia", "EE"),
   ("north korea", "KP"),
   ("democratic people\x27s republic of korea", "KP"),
   ("republic of korea", "KR")]

/-- Is `c` a lowercase ASCII letter (`[a-z]` of the trailing-code regex)? -/
def isLowerAlpha (c : Char) : Bool :=
  ('a' ≤ c) && (c ≤ 'z')

/-- Is `c` a JS regex word character (`[A-Za-z0-9_]`), for the `\b`
boundary of the trailing-code regex? -/
def isWordChar (c : Char) : Bool :=
  (('a' ≤ c) && (c ≤ 'z')) || (('A' ≤ c) && (c ≤ 'Z')) ||
    (('0' ≤ c) && (c ≤ '9')) || c == '_'

/-- The `/\b([a-z]{2})\s*$/i` heuristic at the end of
`XLocationFlags.parseLocation`: extract a trailing two-letter code (the
input is already lowercased and trimmed) and validate it against the
known-code set. -/
def trailingIsoCode (normalized : String) : Option String :=
  match normalized.data.reverse with
  | b :: a :: rest =>
    if isLowerAlpha a && isLowerAlpha b &&
        (match rest with | [] => true | r :: _ => !isWordChar r) then
      let code := String.mk [a.toUpper, b.toUpper]
      if countryNameToCode.any (fun p => p.2 == code) then some code else none
    else none
  | _ => none

/-- Embeds `XLocationFlags.parseLocation`: freeform location string → ISO country
code or region code.  Region aliases are checked first, then exact /
suffix country-name matches, then substring containment, then the
trailing-two-letter-code heuristic. -/
def parseLocation (location : String) : Option String :=
  if jsIsEmpty location then none else
  let normalized := jsTrim (jsToLower location)
  match regionMapping.find?
      (fun p => normalized == p.1 || jsIncludes normalized p.1) with
  | some p => some p.2
  | none =>
  match countryNameToCode.find?
      (fun p => normalized == p.1 || jsEndsWith normalized (", " ++ p.1) ||
        jsEndsWith normalized (" " ++ p.1)) with
  | some p => some p.2
  | none =>
  match countryNameToCode.find? (fun p => jsIncludes normalized p.1) with
  | some p => some p.2
  | none => trailingIsoCode normalized

/-- Embeds `XLocationFlags.isRegionCode`: is this code one of the region codes? -/
def isRegionCode (code : String) : Bool :=
  if jsIsEmpty code then false else
  regionMapping.any (fun p => p.2 == code)

/-! ## CredibilityScorer (content script `XLocation`, src/README.md)

`calculateCredibilityScore` in the source pushes onto a variable `debug`
that is never declared in the function (its JSDoc and the returned object
show a `debug` array was intended); reaching that statement throws a
`ReferenceError`.  The embedding therefore returns `Except Unit _`, with
`.error ()` for the thrown exception.  The `factors` array of human-readable
labels is bookkeeping for the tooltip and is not modelled; `total`,
`instantTier` and `accountAge` are. -/

/-- Platform derived from `connectedVia` (`getPlatformType`). -/
inductive Platform
  | ios
  | android
  | web
deriving DecidableEq, Repr

/-- The `createdAt` input of `calculateAccountAge`: JS `null`, a string
`new Date` cannot parse (`isNaN(created.getTime())`), or a string parsing
to a millisecond timestamp. -/
inductive CreatedAt
  | null
  | unparseable (s : String)
  | parsed (ms : Int)
deriving DecidableEq, Repr

/-- The profile fields consulted by the scorer. -/
structure ProfileData where
  username : String := ""
  locationCountry : Option String := none
  accountBasedIn : Option String := none
  connectedVia : Option String := none
  vpnDetected : Bool := false
  usernameChanges : Nat := 0
  isBlueVerified : Bool := false
  isBusinessVerified : Bool := false
  isGovernmentVerified : Bool := false
  createdAt : CreatedAt := .null
deriving DecidableEq, Repr

/-- Embeds `FIVE_EYES_COUNTRIES`. -/
def FIVE_EYES_COUNTRIES : List String := ["US", "GB", "CA", "AU", "NZ"]

/-- Embeds `ADVERSARY_COUNTRIES`. -/
def ADVERSARY_COUNTRIES : List String := ["RU", "CN", "IR", "KP"]

/-- Embeds `BOT_FARM_COUNTRIES`. -/
def BOT_FARM_COUNTRIES : List String :=
  ["IN", "BD", "PK", "PH", "NG", "VN", "ID", "EG"]

/-- Embeds `REGION_RISK`: regional string → risk level. -/
def REGION_RISK : List (String × String) :=
  [("south asia", "high"), ("eastern europe", "high"),
   ("southeast asia", "medium"), ("middle east", "medium"),
   ("africa", "medium"),
   ("north america", "low"), ("western europe", "low"), ("europe", "low"),
   ("oceania", "low"), ("australia", "low"),
   ("latin america", "neutral"), ("south america", "neutral"),
   ("east asia", "neutral"), ("asia", "neutral"), ("asia pacific", "neutral")]

/-- Embeds `NEIGHBORING_COUNTRIES`. -/
def NEIGHBORING_COUNTRIES : List (String × List String) :=
  [("US", ["CA", "MX"]), ("CA", ["US"]), ("MX", ["US", "GT", "BZ"]),
   ("GB", ["IE"]), ("IE", ["GB"]),
   ("DE", ["AT", "CH", "FR", "PL", "NL", "BE", "CZ", "DK"]),
   ("FR", ["DE", "ES", "IT", "CH", "BE"]), ("ES", ["PT", "FR"]),
   ("PT", ["ES"]), ("IT", ["FR", "CH", "AT"]),
   ("CH", ["DE", "FR", "IT", "AT"]), ("AT", ["DE", "CH", "IT", "HU", "CZ"]),
   ("PL", ["DE", "CZ", "UA"]), ("UA", ["PL", "RO", "HU"]),
   ("RU", ["UA", "BY", "KZ"]), ("CN", ["HK", "TW", "KR", "JP", "VN"]),
   ("HK", ["CN"]), ("TW", ["CN"]), ("JP", ["KR"]), ("KR", ["JP"]),
   ("AU", ["NZ"]), ("NZ", ["AU"])]

/-- Milliseconds per year as used by `calculateAccountAge`
(`1000 * 60 * 60 * 24 * 365.25`). -/
def msPerYear : ℚ := 31557600000

/-- Embeds `calculateAccountAge`: account age in (decimal) years, `0` for a null
or unparseable `createdAt`, clamped below by `Math.max(0, ·)`. -/
def calculateAccountAge (now : Int) : CreatedAt → ℚ
  | .null => 0
  | .unparseable _ => 0
  | .parsed created => max 0 (((now - created : Int) : ℚ) / msPerYear)

/-- Embeds `getPlatformType`: platform from the `connectedVia` string. -/
def getPlatformType (connectedVia : String) : Platform :=
  if jsIsEmpty connectedVia then .web else
  let lower := jsToLower connectedVia
  if jsIncludes lower "app store" then .ios
  else if jsIncludes lower "android" then .android
  else .web

/-- Embeds `extractAppStoreCountry`: country code parsed out of the
app-store / client string. -/
def extractAppStoreCountry (connectedVia : String) : Option String :=
  if jsIsEmpty connectedVia then none else parseLocation connectedVia

/-- Embeds `isFiveEyes`. -/
def isFiveEyes : Option String → Bool
  | none => false
  | some c => (!jsIsEmpty c) && FIVE_EYES_COUNTRIES.contains c

/-- Embeds `isAdversaryOrigin`: adversary country code, or an `accountBasedIn`
string naming an adversary region. -/
def isAdversaryOrigin (countryCode : Option String)
    (accountBasedIn : String) : Bool :=
  (match countryCode with
   | none => false
   | some c => (!jsIsEmpty c) && ADVERSARY_COUNTRIES.contains c) ||
  ((!jsIsEmpty accountBasedIn) &&
    (let lower := jsToLower accountBasedIn
     jsIncludes lower "russia" || jsIncludes lower "china" ||
       jsIncludes lower "iran" || jsIncludes lower "north korea"))

/-- Embeds `isBotFarmOrigin`. -/
def isBotFarmOrigin (countryCode : Option String)
    (accountBasedIn : String) : Bool :=
  (match countryCode with
   | none => false
   | some c => (!jsIsEmpty c) && BOT_FARM_COUNTRIES.contains c) ||
  ((!jsIsEmpty accountBasedIn) &&
    (alGet (jsToLower accountBasedIn) REGION_RISK == some "high"))

/-- Embeds `getRegionRisk` (note the `.trim()` here, absent in
`isBotFarmOrigin`). -/
def getRegionRisk (s : String) : Option String :=
  if jsIsEmpty s then none else alGet (jsTrim (jsToLower s)) REGION_RISK

/-- The `isMismatch` component of `checkRegionalMismatch` (the returned
risk levels are only used to label a factor). -/
def checkRegionalMismatch (accountBasedIn connectedVia : String) : Bool :=
  match getRegionRisk accountBasedIn, getRegionRisk connectedVia with
  | some ar, some sr =>
    (ar == "high" && sr == "low") || (ar == "medium" && sr == "low")
  | _, _ => false

/-- Embeds `isNeighboringCountries`. -/
def isNeighboringCountries (c1 c2 : Option String) : Bool :=
  match c1, c2 with
  | some a, some b =>
    (!jsIsEmpty a) && (!jsIsEmpty b) &&
    (match alGet a NEIGHBORING_COUNTRIES with
     | some ns => ns.contains b
     | none => false)
  | _, _ => false

/-- Derived `platform` of `calculateCredibilityScore`. -/
def platformOf (p : ProfileData) : Platform :=
  getPlatformType (jsOrEmpty p.connectedVia)

/-- Derived `appStoreCountry` of `calculateCredibilityScore`. -/
def appStoreCountryOf (p : ProfileData) : Option String :=
  extractAppStoreCountry (jsOrEmpty p.connectedVia)

/-- Derived `locationMatch`. -/
def locationMatchOf (p : ProfileData) : Bool :=
  jsStrTruthy p.locationCountry && jsStrTruthy (appStoreCountryOf p) &&
    (p.locationCountry == appStoreCountryOf p)

/-- Derived `isNeighbor`. -/
def isNeighborOf (p : ProfileData) : Bool :=
  jsStrTruthy p.locationCountry && jsStrTruthy (appStoreCountryOf p) &&
    isNeighboringCountries p.locationCountry (appStoreCountryOf p)

/-- Derived `bothFiveEyes`. -/
def bothFiveEyesOf (p : ProfileData) : Bool :=
  isFiveEyes p.locationCountry && isFiveEyes (appStoreCountryOf p)

/-- Derived `isAdversary`. -/
def isAdversaryOf (p : ProfileData) : Bool :=
  isAdversaryOrigin p.locationCountry (jsOrEmpty p.accountBasedIn)

/-- Derived `isBotFarm`. -/
def isBotFarmOf (p : ProfileData) : Bool :=
  isBotFarmOrigin p.locationCountry (jsOrEmpty p.accountBasedIn)

/-- Derived `regionalMismatch.isMismatch`. -/
def regionalMismatchOf (p : ProfileData) : Bool :=
  checkRegionalMismatch (jsOrEmpty p.accountBasedIn) (jsOrEmpty p.connectedVia)

/-- The "INSTANT NUKE CHECK" condition: adversary origin, Android or Web
platform, and VPN detected. -/
def instantNukeCond (p : ProfileData) : Bool :=
  isAdversaryOf p &&
    (platformOf p == Platform.android || platformOf p == Platform.web) &&
    p.vpnDetected

/-- The account-age bonus applied by `calculateCredibilityScore`
(+3 for ≥ 5 years, +2 for ≥ 3, +1 for ≥ 1). -/
def accountAgeBonus (age : ℚ) : Int :=
  if 5 ≤ age then 3 else if 3 ≤ age then 2 else if 1 ≤ age then 1 else 0

/-- The additive score accumulated by `calculateCredibilityScore` in
source order: platform base trust, location-match bonus, verification
bonus, account-age bonus, context-sensitive VPN penalty, no-VPN
geo-mismatch penalty, regional-mismatch penalty, username-churn
penalty. -/
def additiveScore (now : Int) (p : ProfileData) : Int :=
  let platform := platformOf p
  let hasVPN := p.vpnDetected
  let locationMatch := locationMatchOf p
  let s1 : Int :=
    if platform == .ios then 1 else if platform == .web then -1 else 0
  let s2 : Int :=
    if locationMatch then
      (if platform == .ios then 3 else if platform == .android then 2 else 1)
    else if isNeighborOf p && !hasVPN then 1 else 0
  let s3 : Int :=
    if p.isBusinessVerified then 3 else if p.isBlueVerified then 2 else 0
  let s4 : Int := accountAgeBonus (calculateAccountAge now p.createdAt)
  let s5 : Int :=
    if hasVPN then
      (if locationMatch && platform == .ios then -1
       else if bothFiveEyesOf p then -1
       else if platform == .ios then -2
       else if isBotFarmOf p then -4
       else -3)
    else 0
  let s6 : Int :=
    if !hasVPN && !locationMatch && jsStrTruthy (appStoreCountryOf p) then
      (if platform == .ios then 0 else if platform == .android then -1 else -2)
    else 0
  let s7 : Int := if regionalMismatchOf p then -2 else 0
  let s8 : Int :=
    if p.usernameChanges ≥ 10 then -3
    else if p.usernameChanges ≥ 6 then -2
    else if p.usernameChanges ≥ 3 then -1 else 0
  s1 + s2 + s3 + s4 + s5 + s6 + s7 + s8

/-- The `{ total, instantTier, accountAge }` result of
`calculateCredibilityScore`. -/
structure ScoreResult where
  total : Int
  instantTier : Option Int
  accountAge : ℚ
deriving DecidableEq, Repr

/-- Embeds `calculateCredibilityScore`.  When the instant-nuke condition holds
the source executes `debug.push(...)` on the undeclared variable `debug`
and throws (`.error ()`); otherwise it returns the additive score with
`instantTier` still `null`. -/
def calculateCredibilityScore (now : Int) (p : ProfileData) :
    Except Unit ScoreResult :=
  if instantNukeCond p then .error ()
  else .ok { total := additiveScore now p, instantTier := none,
             accountAge := calculateAccountAge now p.createdAt }

/-- A tier value: a numeric tier or the distinguished "government". -/
inductive TierVal
  | num (n : Int)
  | government
deriving DecidableEq, Repr

/-- The score-to-tier step function at the end of `calculateTier`. -/
def tierFromScore (score : Int) : Int :=
  if score ≥ 6 then 1
  else if score ≥ 4 then 2
  else if score ≥ 2 then 3
  else if score ≥ 0 then 4
  else 5

/-- Does the profile have any of the three location fields
(`locationCountry`, `accountBasedIn`, `connectedVia`)? -/
def hasLocationData (p : ProfileData) : Bool :=
  jsStrTruthy p.locationCountry || jsStrTruthy p.accountBasedIn ||
    jsStrTruthy p.connectedVia

/-- Embeds `calculateTier`: government short-circuit, tier 6 for no location
data, then the score pipeline (which can throw) and the step function. -/
def calculateTier (now : Int) (p : ProfileData) : Except Unit TierVal :=
  if p.isGovernmentVerified then .ok .government
  else if !hasLocationData p then .ok (.num 6)
  else
    match calculateCredibilityScore now p with
    | .error e => .error e
    | .ok r =>
      match r.instantTier with
      | some t => .ok (.num t)
      | none => .ok (.num (tierFromScore r.total))

/-- A profile triggering the instant-nuke check: adversary-region
`accountBasedIn`, web platform (no `connectedVia`), VPN detected. -/
def nukeProfile : ProfileData :=
  { username := "suspect", accountBasedIn := some "Russia",
    vpnDetected := true }

/-- A plain non-government profile with location data that does not
trigger the instant override. -/
def plainProfile : ProfileData :=
  { username := "plain", locationCountry := some "US" }

/-! ## FetchPipeline rate-limit backoff (content script `XLocation`,
src/README.md, `fetchFromAPI`)

The rate-limit fields of the `XLocation` singleton.  The JS values are IEEE
doubles; every quantity reachable here (`500 * 1.5^k` capped at 2000,
`60000 * 1.5^k` capped at 300000) is exact in double precision, so `ℚ`
is a faithful carrier. -/

/-- Embeds `RATE_LIMIT_BASE_PAUSE` (1 minute). -/
def RATE_LIMIT_BASE_PAUSE : ℚ := 60000

/-- Embeds `RATE_LIMIT_MAX_PAUSE` (5 minutes). -/
def RATE_LIMIT_MAX_PAUSE : ℚ := 300000

/-- The mutable rate-limit fields of `XLocation`, at their source initial
values. -/
structure RateLimitState where
  RATE_LIMIT_DELAY : ℚ := 500
  RATE_LIMIT_PAUSED : Bool := false
  RATE_LIMIT_PAUSE_UNTIL : ℚ := 0
  RATE_LIMIT_CURRENT_PAUSE : ℚ := 60000
  RATE_LIMIT_CONSECUTIVE : Nat := 0
deriving DecidableEq, Repr

/-- The initial (module-load) rate-limit state. -/
def initialRateLimitState : RateLimitState := {}

/-- The HTTP-429 branch of `fetchFromAPI`: bump the consecutive-hit
count, recompute the pause via exponential backoff
(`base * 1.5^(hits-1)` capped), set `paused` / `pauseUntil`, and widen
the inter-request delay (capped at 2000ms). -/
def on429 (now : Int) (s : RateLimitState) : RateLimitState :=
  let hits := s.RATE_LIMIT_CONSECUTIVE + 1
  let pause :=
    min (RATE_LIMIT_BASE_PAUSE * (3 / 2 : ℚ) ^ (hits - 1)) RATE_LIMIT_MAX_PAUSE
  { RATE_LIMIT_CONSECUTIVE := hits,
    RATE_LIMIT_CURRENT_PAUSE := pause,
    RATE_LIMIT_PAUSED := true,
    RATE_LIMIT_PAUSE_UNTIL := (now : ℚ) + pause,
    RATE_LIMIT_DELAY := min (s.RATE_LIMIT_DELAY * (3 / 2)) 2000 }

/-- The `response.ok` branch of `fetchFromAPI`: reset the backoff
counters (delay, consecutive hits, current pause) to their base values.
`paused` / `pauseUntil` are not touched here; the queue scheduler clears
them when the pause expires. -/
def onFetchSuccessReset (s : RateLimitState) : RateLimitState :=
  { s with RATE_LIMIT_DELAY := 500, RATE_LIMIT_CONSECUTIVE := 0,
           RATE_LIMIT_CURRENT_PAUSE := RATE_LIMIT_BASE_PAUSE }

/-- Fold a sequence of 429 responses (with their arrival times) through
`on429`. -/
def iterate429 (times : List Int) (s : RateLimitState) : RateLimitState :=
  times.foldl (fun st t => on429 t st) s

/-! ## FetchPipeline queue deduplication (content script `XLocation`,
src/README.md, `processTweet` / `queueProfileFetch` / `fetchProfile`)

Callers (tweet DOM elements waiting for an indicator) are abstract
handles.  The JS event loop is single-threaded, so the queue discipline is
embedded as sequential state transitions; a "raw fetch" is issued once per
username occurrence the scheduler shifts off `requestQueue`. -/

/-- An abstract caller handle (a tweet element in the source). -/
abbrev Caller := Nat

/-- Embeds `MAX_QUEUE_SIZE`. -/
def MAX_QUEUE_SIZE : Nat := 50

/-- The queue/correlation fields of `XLocation`: the `pendingRequests`
map (username → interested elements) and the FIFO `requestQueue`. -/
structure PipelineState where
  pendingRequests : List (String × List Caller) := []
  requestQueue : List String := []
deriving DecidableEq, Repr

/-- Embeds `queueProfileFetch`: drop when the queue is full or the username is
already queued; otherwise create the `PendingRequest` and enqueue. -/
def queueProfileFetch (username : String) (el : Caller)
    (s : PipelineState) : PipelineState :=
  if s.requestQueue.length ≥ MAX_QUEUE_SIZE then s
  else if s.requestQueue.contains username then s
  else
    { pendingRequests := alSet username [el] s.pendingRequests,
      requestQueue := s.requestQueue ++ [username] }

/-- The queueing tail of `processTweet` (after the username has been
extracted): on a usable cache hit the indicator is injected and nothing
is queued; otherwise a second caller for an already-pending username is
attached to the existing `PendingRequest`, and only a genuinely new
username goes through `queueProfileFetch`.  The cache consultation
outcome is passed in as `cachedValid`. -/
def processTweet (cachedValid : Bool) (username : String) (el : Caller)
    (s : PipelineState) : PipelineState :=
  if cachedValid then s
  else
    match alGet username s.pendingRequests with
    | some els =>
      { s with pendingRequests :=
          alSet username (els ++ [el]) s.pendingRequests }
    | none => queueProfileFetch username el s

/-- The success tail of `fetchProfile`: deliver the single resolved
record to every still-attached element (`document.contains` is the
`present` predicate) and delete the `PendingRequest`.  Returns the new
state and the (caller, record) deliveries. -/
def resolveSuccess (username : String) (record : ProfileData)
    (present : Caller → Bool) (s : PipelineState) :
    PipelineState × List (Caller × ProfileData) :=
  match alGet username s.pendingRequests with
  | none => (s, [])
  | some els =>
    ({ s with pendingRequests := alDelete username s.pendingRequests },
     (els.filter present).map (fun e => (e, record)))

/-! ## ConsensusValidator (`XLocationGun`, src/unnamed/part_000)

The Ed25519 check is delegated to the injected `verify` capability
(`XLocationVPS.verifyServerSignature`, defined in the API client and
always loaded alongside, applied to the task's own content fields); the
raw profile fetch is abstracted by `fetchResult`
(`window.XLocation.fetchProfileFromAPI`). -/

/-- Embeds `VALIDATOR_BUDGET_PER_HOUR`. -/
def VALIDATOR_BUDGET_PER_HOUR : Int := 25

/-- The persisted validator-budget state of `XLocationGun`. -/
structure GunState where
  validatorBudget : Int := 25
  lastBudgetReset : Int := 0
deriving DecidableEq, Repr

/-- Embeds `resetBudgetIfNeeded`: lazily replenish the budget once the hourly
window has passed. -/
def resetBudgetIfNeeded (now : Int) (s : GunState) : GunState :=
  if now - s.lastBudgetReset > 60 * 60 * 1000 then
    { validatorBudget := VALIDATOR_BUDGET_PER_HOUR, lastBudgetReset := now }
  else s

/-- Embeds `canValidate`: budget check after the lazy reset (which mutates the
state). -/
def canValidate (now : Int) (s : GunState) : Bool × GunState :=
  let s1 := resetBudgetIfNeeded now s
  (s1.validatorBudget > 0, s1)

/-- Embeds `consumeValidatorBudget`. -/
def consumeValidatorBudget (now : Int) (s : GunState) : Bool × GunState :=
  let r := canValidate now s
  if r.1 then (true, { r.2 with validatorBudget := r.2.validatorBudget - 1 })
  else (false, r.2)

/-- A server-signed validation task as delivered on the task channel
(the signature blob itself is consumed only by `verify`). -/
structure ValidationTask where
  taskId : String := ""
  username : String := ""
  timestamp : Int := 0
  selectedValidators : Option (List String) := none
deriving DecidableEq, Repr

/-- The fresh profile data returned by the re-fetch, as far as
`handleServerSignedTask` inspects it. -/
structure FreshData where
  createdAt : Option String := none
deriving DecidableEq, Repr

/-- Embeds `handleServerSignedTask`: the gating sequence (validator selection,
5-minute freshness, peer-validation setting, signature verification,
budget check, budget consumption) followed by the fetch.  Returns the new
budget state, whether the fetch was performed, and whether the result was
submitted/republished (fetch succeeded with a `createdAt`). -/
def handleServerSignedTask (myNodeId : String) (now : Int)
    (peerValidation : Bool) (verify : ValidationTask → Bool)
    (fetchResult : Option FreshData) (task : ValidationTask)
    (s : GunState) : GunState × Bool × Bool :=
  match task.selectedValidators with
  | none => (s, false, false)
  | some vs =>
    if !vs.contains myNodeId then (s, false, false)
    else if now - task.timestamp > 5 * 60 * 1000 then (s, false, false)
    else if !peerValidation then (s, false, false)
    else if !verify task then (s, false, false)
    else
      let c := canValidate now s
      if !c.1 then (c.2, false, false)
      else
        let k := consumeValidatorBudget now c.2
        if !k.1 then (k.2, false, false)
        else
          (k.2, true,
           match fetchResult with
           | some fd => jsStrTruthy fd.createdAt
           | none => false)

/-- A concrete well-formed validation task naming validator "node_a". -/
def demoTask : ValidationTask :=
  { taskId := "t1", username := "alice", timestamp := 900,
    selectedValidators := some ["node_a"] }

/-! ## TieredCache (`XLocationCache`, src/unnamed/part_002)

Memory tier: insertion-ordered association list (JS `Map`).  IndexedDB
tier: association list keyed by lowercase username (IndexedDB `put`
stores a structured clone at call time).  Remote tier
(`XLocationRemote`): abstracted as a key → entry store; its `get` returns
`null` when disabled or missing, and its `set` refuses error,
rate-limited and invalid records.  The `navigator.storage` quota estimate
of `checkAndEvict` is modelled as unavailable (the API is optional), so
only the entry-count branch evicts.  The `Math.random() < 0.05` eviction
roll of `set` is the explicit `evictRoll` argument. -/

/-- The profile fields the cache logic inspects. -/
structure CacheRecord where
  username : String := ""
  createdAt : Option String := none
  connectedVia : Option String := none
  accountBasedIn : Option String := none
  locationCountry : Option String := none
  vpnDetected : Bool := false
  isGovernmentVerified : Bool := false
  tier : Option TierVal := none
  error : Bool := false
  rateLimited : Bool := false
  displayName : Option String := none
deriving DecidableEq, Repr

/-- A stored cache entry: the record plus `timestamp` (write time),
`lastAccessed` (absent until first stamped) and the `_cacheSource`
annotation the tiers attach to returned objects. -/
structure CacheEntry where
  data : CacheRecord
  timestamp : Int := 0
  lastAccessed : Option Int := none
  cacheSource : Option String := none
deriving DecidableEq, Repr

/-- Embeds `CACHE_DURATION` (1 day). -/
def CACHE_DURATION : Int := 24 * 60 * 60 * 1000

/-- Embeds `ERROR_CACHE_DURATION` (30 minutes). -/
def ERROR_CACHE_DURATION : Int := 30 * 60 * 1000

/-- Embeds `MAX_ENTRIES`. -/
def MAX_ENTRIES : Nat := 5000

/-- Embeds `EVICTION_BATCH_SIZE`. -/
def EVICTION_BATCH_SIZE : Nat := 500

/-- Embeds `MEMORY_CACHE_MAX`. -/
def MEMORY_CACHE_MAX : Nat := 200

/-- Embeds `isValidCacheEntry`: the validity predicate applied on every read and
on writes. -/
def isValidCacheEntry (d : CacheRecord) : Bool :=
  if d.isGovernmentVerified then true
  else if jsStrTruthy d.createdAt then true
  else if jsStrTruthy d.connectedVia then true
  else if jsStrTruthy d.accountBasedIn then true
  else if d.tier.isSome then true
  else if d.error &&
      (match d.displayName with
       | some dn => (!jsIsEmpty dn) && dn != d.username
       | none => false) then true
  else false

/-- The state of the three-tier cache. `useRemoteCache` is the local
toggle; `remoteEnabled` is `XLocationRemote.isEnabled` (the source also
checks that the remote collaborator script is loaded, which this flag
subsumes). -/
structure CacheState where
  memoryCache : List (String × CacheEntry) := []
  db : List (String × CacheEntry) := []
  remote : List (String × CacheEntry) := []
  useRemoteCache : Bool := true
  remoteEnabled : Bool := true
deriving DecidableEq, Repr

/-- Embeds `addToMemoryCache`: evict the oldest (first-inserted) key when at
capacity, then insert. -/
def addToMemoryCache (k : String) (v : CacheEntry)
    (mem : List (String × CacheEntry)) : List (String × CacheEntry) :=
  let m1 :=
    if mem.length ≥ MEMORY_CACHE_MAX then
      match mem with
      | [] => mem
      | p :: _ => alDelete p.1 mem
    else mem
  alSet k v m1

/-- Insertion step for ordering IndexedDB entries by the `lastAccessed`
index (ascending). -/
def lruInsert (p : String × CacheEntry) :
    List (String × CacheEntry) → List (String × CacheEntry)
  | [] => [p]
  | q :: rest =>
    if p.2.lastAccessed.getD 0 ≤ q.2.lastAccessed.getD 0 then p :: q :: rest
    else q :: lruInsert p rest

/-- Embeds `evictLRU`: walk the `lastAccessed` index (entries without a
`lastAccessed` key are absent from the index) and delete the first
`count` entries, purging the same records from the memory tier by their
`username` field. -/
def evictLRU (count : Nat) (s : CacheState) : CacheState :=
  let indexed := (s.db.filter (fun p => p.2.lastAccessed.isSome))
  let victims := (indexed.foldr lruInsert []).take count
  { s with
    db := s.db.filter (fun p => !victims.any (fun v => v.1 == p.1)),
    memoryCache := s.memoryCache.filter
      (fun p => !victims.any (fun v => v.2.data.username == p.1)) }

/-- Embeds `checkAndEvict` (entry-count branch; the storage-quota branch is
gated on an absent browser API). -/
def checkAndEvict (s : CacheState) : CacheState :=
  if s.db.length > MAX_ENTRIES then evictLRU EVICTION_BATCH_SIZE s else s

/-- Embeds `XLocationRemote.isValidForRemote`. -/
def isValidForRemote (r : CacheRecord) : Bool :=
  jsStrTruthy r.createdAt || jsStrTruthy r.connectedVia ||
    jsStrTruthy r.accountBasedIn || r.isGovernmentVerified

/-- Embeds `XLocationRemote.set`: refuse error / rate-limited / invalid
records, otherwise upsert keyed by lowercase username (`dbToProfile`
tags reads with `_cacheSource: 'remote'`, recorded here at write). -/
def remoteSet (now : Int) (username : String) (r : CacheRecord)
    (remote : List (String × CacheEntry)) : List (String × CacheEntry) :=
  if r.error || r.rateLimited then remote
  else if !isValidForRemote r then remote
  else
    alSet (jsToLower username)
      { data := r, timestamp := now, lastAccessed := none,
        cacheSource := some "remote" } remote

/-- Tier 3 of `XLocationCache.get`: consult the remote store when
enabled, returning a hit only if it passes the validity predicate, and
back-fill it into the memory tier (as-is) and the IndexedDB tier
(re-stamped by `setLocal`). -/
def cacheGetTier3 (now : Int) (key : String) (s : CacheState) :
    Option CacheEntry × CacheState :=
  if s.useRemoteCache && s.remoteEnabled then
    match alGet key s.remote with
    | some rd =>
      if isValidCacheEntry rd.data then
        (some rd,
         { s with
           memoryCache := addToMemoryCache key rd s.memoryCache,
           db := alSet key
             { rd with timestamp := now, lastAccessed := some now } s.db })
      else (none, s)
    | none => (none, s)
  else (none, s)

/-- Tier 2 of `XLocationCache.get`: IndexedDB lookup with TTL expiry and
validity purge (both falling through to tier 3), `lastAccessed` bump
written back, and back-fill of the returned object (tagged
`_cacheSource: 'indexeddb'` after the write-back) into the memory
tier. -/
def cacheGetTier2 (now : Int) (key : String) (s : CacheState) :
    Option CacheEntry × CacheState :=
  match alGet key s.db with
  | none => cacheGetTier3 now key s
  | some d =>
    let age := now - d.timestamp
    let maxAge := if d.data.error then ERROR_CACHE_DURATION else CACHE_DURATION
    if age > maxAge then
      cacheGetTier3 now key { s with db := alDelete key s.db }
    else if !isValidCacheEntry d.data then
      cacheGetTier3 now key { s with db := alDelete key s.db }
    else
      let d1 := { d with lastAccessed := some now }
      let d2 := { d1 with cacheSource := some "indexeddb" }
      (some d2,
       { s with db := alSet key d1 s.db,
                memoryCache := addToMemoryCache key d2 s.memoryCache })

/-- Embeds `XLocationCache.get`: memory tier (TTL check, validity purge that
also deletes the IndexedDB copy and returns immediately, `lastAccessed`
bump, `_cacheSource: 'memory'` tag), falling through to tiers 2 and
3. -/
def cacheGet (now : Int) (username : String) (s : CacheState) :
    Option CacheEntry × CacheState :=
  let key := jsToLower username
  match alGet key s.memoryCache with
  | some memData =>
    let age := now - memData.timestamp
    let maxAge :=
      if memData.data.error then ERROR_CACHE_DURATION else CACHE_DURATION
    if age ≤ maxAge then
      if !isValidCacheEntry memData.data then
        (none, { s with memoryCache := alDelete key s.memoryCache,
                        db := alDelete key s.db })
      else
        let m := { memData with lastAccessed := some now,
                                cacheSource := some "memory" }
        (some m, { s with memoryCache := alSet key m s.memoryCache })
    else
      cacheGetTier2 now key { s with memoryCache := alDelete key s.memoryCache }
  | none => cacheGetTier2 now key s

/-- Embeds `XLocationCache.set`: skip rate-limit markers when asked, stamp
`timestamp`/`lastAccessed`, refuse invalid non-error records, write the
memory tier, roll the eviction check, write IndexedDB, and fire the
best-effort remote write. -/
def cacheSet (now : Int) (username : String) (r : CacheRecord)
    (skipOnRateLimit : Bool) (evictRoll : Bool) (s : CacheState) :
    CacheState :=
  if skipOnRateLimit && r.rateLimited then s
  else
    let key := jsToLower username
    let e : CacheEntry :=
      { data := r, timestamp := now, lastAccessed := some now }
    if !isValidCacheEntry r && !r.error then s
    else
      let s1 := { s with memoryCache := addToMemoryCache key e s.memoryCache }
      let s2 := if evictRoll then checkAndEvict s1 else s1
      let s3 := { s2 with db := alSet key e s2.db }
      if s3.useRemoteCache && s3.remoteEnabled then
        { s3 with remote := remoteSet now username r s3.remote }
      else s3

/-- Strip the `_cacheSource` annotation from an entry (for comparing two
reads modulo provenance). -/
def eraseSource (e : CacheEntry) : CacheEntry :=
  { e with cacheSource := none }

/-- The validity predicate as the amended C4 claim states it: one of the
five positive signals, or the explicit-error escape (error flag with a
display name differing from the username).  Written from the claim's
words, to be compared with `isValidCacheEntry` from the source. -/
def validCacheSpecAmended (d : CacheRecord) : Bool :=
  d.isGovernmentVerified || jsStrTruthy d.createdAt ||
    jsStrTruthy d.connectedVia || jsStrTruthy d.accountBasedIn ||
    d.tier.isSome ||
    (d.error &&
      (match d.displayName with
       | some dn => (!jsIsEmpty dn) && dn != d.username
       | none => false))

/-- An all-null silent-failure-shaped record that is nevertheless marked
as an error with a foreign display name (the C4 escape hatch). -/
def escapeErrorRecord : CacheRecord :=
  { username := "alice", error := true, displayName := some "Alice Smith" }

/-- An entry sitting only in the IndexedDB tier (for the C7
counterexample). -/
def dbOnlyEntry : CacheEntry :=
  { data := { username := "bob", createdAt := some "2020-01-01" },
    timestamp := 500, lastAccessed := some 500 }

/-- A cache state whose only content is `dbOnlyEntry` in the IndexedDB
tier, remote tier disabled. -/
def dbOnlyState : CacheState :=
  { db := [("bob", dbOnlyEntry)], useRemoteCache := false }

/-- An all-null error record whose display name equals its username, so
the C4 escape hatch does not apply. -/
def errorSelfNameRecord : CacheRecord :=
  { username := "bob", error := true, displayName := some "bob" }

/-! ## Helper lemmas (shared) -/

/-- Looking up a key just set finds the new value. -/
theorem alGet_alSet_self {α : Type} (k : String) (v : α)
    (l : List (String × α)) : alGet k (alSet k v l) = some v := by
  induction l with
  | nil => simp [alSet, alGet]
  | cons p rest ih =>
    by_cases h : p.1 = k
    · simp [alSet, alGet, h]
    · simp only [alSet]
      rw [if_neg (by simpa using h)]
      simpa [alGet, List.find?_cons, show (p.1 == k) = false by simpa using h]
        using ih

/-- Looking up a key just deleted finds nothing. -/
theorem alGet_alDelete_self {α : Type} (k : String)
    (l : List (String × α)) : alGet k (alDelete k l) = none := by
  induction l with
  | nil => rfl
  | cons p rest ih =>
    unfold alDelete at ih ⊢
    by_cases h : p.1 = k
    · have hb : (p.1 != k) = false := by simp [h]
      rw [List.filter_cons, hb]
      exact ih
    · have hb : (p.1 != k) = true := by simp [h]
      have he : (p.1 == k) = false := by simp [h]
      rw [List.filter_cons, hb]
      simp only [if_true]
      simp only [alGet, List.find?_cons, he] at ih ⊢
      exact ih

/-- A key just added to the memory tier is found there. -/
theorem alGet_addToMemoryCache_self (k : String) (v : CacheEntry)
    (mem : List (String × CacheEntry)) :
    alGet k (addToMemoryCache k v mem) = some v := by
  unfold addToMemoryCache
  exact alGet_alSet_self k v _

/-- Tier 3 misses when the remote store has no binding for the key. -/
theorem cacheGetTier3_fst_of_none (now : Int) (key : String)
    (s : CacheState) (h : alGet key s.remote = none) :
    (cacheGetTier3 now key s).1 = none := by
  unfold cacheGetTier3
  split
  · rw [h]
  · rfl

/-- A full three-tier miss returns nothing. -/
theorem cacheGet_fst_of_all_none (now : Int) (u : String) (s : CacheState)
    (hm : alGet (jsToLower u) s.memoryCache = none)
    (hd : alGet (jsToLower u) s.db = none)
    (hr : alGet (jsToLower u) s.remote = none) :
    (cacheGet now u s).1 = none := by
  simp only [cacheGet, hm]
  simp only [cacheGetTier2, hd]
  exact cacheGetTier3_fst_of_none now _ s hr

/-- Folding 429 responses adds their count to the consecutive-hit
counter. -/
theorem iterate429_consecutive (ts : List Int) (s : RateLimitState) :
    (iterate429 ts s).RATE_LIMIT_CONSECUTIVE =
      s.RATE_LIMIT_CONSECUTIVE + ts.length := by
  induction ts generalizing s with
  | nil => simp [iterate429]
  | cons t rest ih =>
    show (iterate429 rest (on429 t s)).RATE_LIMIT_CONSECUTIVE = _
    rw [ih]
    simp [on429]
    omega

/-- The lazy budget reset is idempotent at a fixed `now`. -/
theorem resetBudgetIfNeeded_idem (now : Int) (s : GunState) :
    resetBudgetIfNeeded now (resetBudgetIfNeeded now s) =
      resetBudgetIfNeeded now s := by
  unfold resetBudgetIfNeeded
  split
  · simp
  · simp_all

/-- A fresh, valid memory-tier hit is returned with the `lastAccessed`
bump and the memory provenance tag. -/
theorem cacheGet_memory_hit (now : Int) (u : String) (s : CacheState)
    (m : CacheEntry)
    (hm : alGet (jsToLower u) s.memoryCache = some m)
    (hfresh : now - m.timestamp ≤
      (if m.data.error = true then ERROR_CACHE_DURATION else CACHE_DURATION))
    (hvalid : isValidCacheEntry m.data = true) :
    (cacheGet now u s).1 =
      some { m with lastAccessed := some now,
                    cacheSource := some "memory" } := by
  simp only [cacheGet, hm]
  rw [if_pos hfresh, if_neg (by simp [hvalid])]

/-- If tier 2 returns an entry while the remote tier is disabled, that
entry is fresh and valid, carries `lastAccessed = now`, and sits in the
memory tier of the resulting state. -/
theorem cacheGetTier2_some_inv (now : Int) (key : String) (s : CacheState)
    (a : CacheEntry) (hrem : s.useRemoteCache = false)
    (h : (cacheGetTier2 now key s).1 = some a) :
    alGet key ((cacheGetTier2 now key s).2).memoryCache = some a ∧
    now - a.timestamp ≤
      (if a.data.error = true then ERROR_CACHE_DURATION
       else CACHE_DURATION) ∧
    isValidCacheEntry a.data = true ∧ a.lastAccessed = some now := by
  cases hd : alGet key s.db with
  | none =>
    exfalso
    simp only [cacheGetTier2, hd] at h
    simp [cacheGetTier3, hrem] at h
  | some d =>
    simp only [cacheGetTier2, hd] at h ⊢
    by_cases hexp : now - d.timestamp >
        (if d.data.error = true then ERROR_CACHE_DURATION
         else CACHE_DURATION)
    · exfalso
      rw [if_pos hexp] at h
      simp [cacheGetTier3, hrem] at h
    · rw [if_neg hexp] at h ⊢
      by_cases hval : isValidCacheEntry d.data = true
      · rw [if_neg (by simp [hval])] at h ⊢
        injection h with h
        subst h
        exact ⟨alGet_addToMemoryCache_self _ _ _, not_lt.mp hexp, hval, rfl⟩
      · exfalso
        rw [if_pos (by simp [Bool.not_eq_true] at hval ⊢; exact hval)] at h
        simp [cacheGetTier3, hrem] at h

/-- If `cacheGet` returns an entry while the remote tier is disabled,
that entry is fresh and valid, carries `lastAccessed = now`, and sits in
the memory tier of the resulting state. -/
theorem cacheGet_some_inv (now : Int) (u : String) (s : CacheState)
    (a : CacheEntry) (hrem : s.useRemoteCache = false)
    (h : (cacheGet now u s).1 = some a) :
    alGet (jsToLower u) ((cacheGet now u s).2).memoryCache = some a ∧
    now - a.timestamp ≤
      (if a.data.error = true then ERROR_CACHE_DURATION
       else CACHE_DURATION) ∧
    isValidCacheEntry a.data = true ∧ a.lastAccessed = some now := by
  cases hm : alGet (jsToLower u) s.memoryCache with
  | none =>
    simp only [cacheGet, hm] at h ⊢
    exact cacheGetTier2_some_inv now _ s a hrem h
  | some m =>
    simp only [cacheGet, hm] at h ⊢
    by_cases hfresh : now - m.timestamp ≤
        (if m.data.error = true then ERROR_CACHE_DURATION
         else CACHE_DURATION)
    · rw [if_pos hfresh] at h ⊢
      by_cases hval : isValidCacheEntry m.data = true
      · rw [if_neg (by simp [hval])] at h ⊢
        injection h with h
        subst h
        exact ⟨alGet_alSet_self _ _ _, hfresh, hval, rfl⟩
      · rw [if_pos (by simp [Bool.not_eq_true] at hval ⊢; exact hval)] at h
        cases h
    · rw [if_neg hfresh] at h ⊢
      exact cacheGetTier2_some_inv now _ _ a hrem h

/-- C8 counterexample: the region code returned for the region alias
"South America" is the string "SA", which is exactly the country code the
resolver returns for the country input "Saudi Arabia", so that region code
is not distinguishable from a country code (and `isRegionCode` even
classifies the Saudi Arabia result as a region). -/
theorem c8_region_country_collision :
    parseLocation "South America" = some "SA" ∧
    parseLocation "Saudi Arabia" = some "SA" ∧
    isRegionCode "SA" = true := by
  refine ⟨by decide, by decide, by decide⟩

/-- C8 (amended): `parseLocation "New York, USA" = "US"`,
`parseLocation "North America" = "NA"` (the region code for North
America), and every region code except "SA" is distinct from every
country code the resolver can return for a country input; the region code
"SA" (South America) collides with the country code for Saudi Arabia. -/
theorem c8_amended_region_codes_distinct :
    parseLocation "New York, USA" = some "US" ∧
    parseLocation "North America" = some "NA" ∧
    (regionMapping.all (fun r =>
      r.2 == "SA" || !countryNameToCode.any (fun c => c.2 == r.2))) = true := by
  refine ⟨by decide, by decide, by decide⟩

/-- C1: for a profile whose derived origin is an adversary country, whose
platform is android or web, and whose `vpnDetected` is true, the
instant-nuke condition holds, but `calculateTier` does not return tier 5:
the source's `debug.push(...)` on the undeclared `debug` variable throws,
so the call errors out for every `now` instead of producing a tier. -/
theorem c1_instant_nuke_throws (now : Int) :
    instantNukeCond nukeProfile = true ∧
    calculateTier now nukeProfile = Except.error () := by
  have hn : instantNukeCond nukeProfile = true := by decide
  have hg : nukeProfile.isGovernmentVerified = false := rfl
  have hl : hasLocationData nukeProfile = true := by decide
  exact ⟨hn, by simp [calculateTier, calculateCredibilityScore, hg, hl, hn]⟩

/-- C2: every profile with `isGovernmentVerified = true` gets the
distinguished tier "government" from `calculateTier`, regardless of all
other fields. -/
theorem c2_government_short_circuit (now : Int) (p : ProfileData)
    (h : p.isGovernmentVerified = true) :
    calculateTier now p = Except.ok TierVal.government := by
  simp [calculateTier, h]

/-- Witness for C2 at a concrete government-verified profile. -/
theorem c2_government_witness :
    calculateTier 0 { username := "gov", isGovernmentVerified := true } =
      Except.ok TierVal.government :=
  c2_government_short_circuit 0
    { username := "gov", isGovernmentVerified := true } rfl

/-- C3: for a non-government profile with at least one of the three
location fields and no instant override, `calculateTier` maps the
computed additive score through the exact step function (≥6→1, ≥4→2,
≥2→3, ≥0→4, else 5, so boundary scores 6, 4, 2, 0, −1 give tiers
1..5); with none of the three fields and not government-verified the
tier is 6 regardless of score. -/
theorem c3_tier_step_function (now : Int) (p : ProfileData)
    (hg : p.isGovernmentVerified = false) :
    (hasLocationData p = true → instantNukeCond p = false →
      calculateTier now p =
        Except.ok (TierVal.num (tierFromScore (additiveScore now p)))) ∧
    (hasLocationData p = false → calculateTier now p =
      Except.ok (TierVal.num 6)) ∧
    tierFromScore 6 = 1 ∧ tierFromScore 4 = 2 ∧ tierFromScore 2 = 3 ∧
    tierFromScore 0 = 4 ∧ tierFromScore (-1) = 5 := by
  refine ⟨?_, ?_, by decide, by decide, by decide, by decide, by decide⟩
  · intro hl hn
    simp [calculateTier, calculateCredibilityScore, hg, hl, hn]
  · intro hl
    simp [calculateTier, hg, hl]

/-- Witness for C3 at a concrete profile (score −1, hence tier 5). -/
theorem c3_tier_step_witness :
    calculateTier 0 plainProfile = Except.ok (TierVal.num 5) ∧
    tierFromScore (additiveScore 0 plainProfile) = 5 := by
  have h := (c3_tier_step_function 0 plainProfile rfl).1 (by decide) (by decide)
  exact ⟨by rw [h]; rfl, by decide⟩

/-- C10: `calculateAccountAge` is total and never negative, and returns 0
(hence a zero account-age bonus) for a null, unparseable, or future-dated
`createdAt`. -/
theorem c10_account_age_total_nonneg (now : Int) (ca : CreatedAt) :
    0 ≤ calculateAccountAge now ca ∧
    ((ca = CreatedAt.null ∨ (∃ s, ca = CreatedAt.unparseable s) ∨
        (∃ t, ca = CreatedAt.parsed t ∧ now < t)) →
      calculateAccountAge now ca = 0 ∧
      accountAgeBonus (calculateAccountAge now ca) = 0) := by
  constructor
  · cases ca with
    | null => simp [calculateAccountAge]
    | unparseable s => simp [calculateAccountAge]
    | parsed t => exact le_max_left 0 _
  · rintro (h | ⟨s, h⟩ | ⟨t, h, hlt⟩) <;> subst h
    · exact ⟨rfl, by simp only [calculateAccountAge]; decide⟩
    · exact ⟨rfl, by simp only [calculateAccountAge]; decide⟩
    · have hneg : ((now - t : Int) : ℚ) < 0 := by
        exact_mod_cast sub_neg.mpr hlt
      have hdiv : ((now - t : Int) : ℚ) / msPerYear < 0 :=
        div_neg_of_neg_of_pos hneg (by norm_num [msPerYear])
      have hz : calculateAccountAge now (CreatedAt.parsed t) = 0 := by
        simp only [calculateAccountAge]
        exact max_eq_left (le_of_lt hdiv)
      exact ⟨hz, by rw [hz]; decide⟩

/-- Witness for C10 at a concrete future-dated `createdAt`. -/
theorem c10_account_age_witness :
    0 ≤ calculateAccountAge 0 (CreatedAt.parsed 5) ∧
    calculateAccountAge 0 (CreatedAt.parsed 5) = 0 ∧
    accountAgeBonus (calculateAccountAge 0 (CreatedAt.parsed 5)) = 0 := by
  have h := c10_account_age_total_nonneg 0 (CreatedAt.parsed 5)
  exact ⟨h.1, h.2 (Or.inr (Or.inr ⟨5, rfl, by decide⟩))⟩

/-- C5: after `N = ts.length + 1 ≥ 1` consecutive 429 responses (the last
at time `t`) from the initial state, the pause duration is exactly
`min(60000 · 1.5^(N−1), 300000)`, the pipeline is paused until
`t + pause`, and the next successful response resets the three backoff
counters (inter-request delay, consecutive hits, current pause) to their
base values. -/
theorem c5_exponential_backoff (ts : List Int) (t : Int) :
    (iterate429 (ts ++ [t]) initialRateLimitState).RATE_LIMIT_CONSECUTIVE =
      ts.length + 1 ∧
    (iterate429 (ts ++ [t]) initialRateLimitState).RATE_LIMIT_CURRENT_PAUSE =
      min (RATE_LIMIT_BASE_PAUSE * (3 / 2 : ℚ) ^ ts.length)
        RATE_LIMIT_MAX_PAUSE ∧
    (iterate429 (ts ++ [t]) initialRateLimitState).RATE_LIMIT_PAUSED = true ∧
    (iterate429 (ts ++ [t]) initialRateLimitState).RATE_LIMIT_PAUSE_UNTIL =
      (t : ℚ) +
        (iterate429 (ts ++ [t]) initialRateLimitState).RATE_LIMIT_CURRENT_PAUSE ∧
    (onFetchSuccessReset
        (iterate429 (ts ++ [t]) initialRateLimitState)).RATE_LIMIT_DELAY = 500 ∧
    (onFetchSuccessReset
        (iterate429 (ts ++ [t])
          initialRateLimitState)).RATE_LIMIT_CONSECUTIVE = 0 ∧
    (onFetchSuccessReset
        (iterate429 (ts ++ [t])
          initialRateLimitState)).RATE_LIMIT_CURRENT_PAUSE =
      RATE_LIMIT_BASE_PAUSE := by
  have happ : iterate429 (ts ++ [t]) initialRateLimitState =
      on429 t (iterate429 ts initialRateLimitState) := by
    simp [iterate429, List.foldl_append]
  have hc : (iterate429 ts initialRateLimitState).RATE_LIMIT_CONSECUTIVE =
      ts.length := by
    simpa [initialRateLimitState] using
      iterate429_consecutive ts initialRateLimitState
  rw [happ]
  refine ⟨by simp [on429, hc], by simp [on429, hc], by simp [on429],
    by simp [on429, hc], rfl, rfl, rfl⟩

/-- C6: when a username is not yet pending or queued, the first request
creates its `PendingRequest` and enqueues it once; a second concurrent
request for the same username attaches its caller to the existing
subscriber list without enqueueing a duplicate, so the username occurs
exactly once in the fetch queue (exactly one raw fetch), and resolution
delivers the single resolved record to both callers and removes the
`PendingRequest`. -/
theorem c6_request_coalescing (s : PipelineState) (u : String)
    (c1 c2 : Caller) (r : ProfileData) (present : Caller → Bool)
    (hp : alGet u s.pendingRequests = none)
    (hq : s.requestQueue.contains u = false)
    (hlen : s.requestQueue.length < MAX_QUEUE_SIZE)
    (hpres1 : present c1 = true) (hpres2 : present c2 = true) :
    alGet u (processTweet false u c2
        (processTweet false u c1 s)).pendingRequests = some [c1, c2] ∧
    (processTweet false u c2 (processTweet false u c1 s)).requestQueue =
      s.requestQueue ++ [u] ∧
    (processTweet false u c2
        (processTweet false u c1 s)).requestQueue.count u = 1 ∧
    (resolveSuccess u r present (processTweet false u c2
        (processTweet false u c1 s))).2 = [(c1, r), (c2, r)] ∧
    alGet u (resolveSuccess u r present (processTweet false u c2
        (processTweet false u c1 s))).1.pendingRequests = none := by
  have hnotmem : u ∉ s.requestQueue := by
    intro hmem
    simp [List.elem_iff] at hq
    exact hq hmem
  have hs1 : processTweet false u c1 s =
      { pendingRequests := alSet u [c1] s.pendingRequests,
        requestQueue := s.requestQueue ++ [u] } := by
    simp only [processTweet, hp, Bool.false_eq_true, if_false,
      queueProfileFetch]
    rw [if_neg (by omega), if_neg (by simpa [List.elem_iff] using hnotmem)]
  have hs2 : processTweet false u c2 (processTweet false u c1 s) =
      { pendingRequests := alSet u ([c1] ++ [c2])
          (alSet u [c1] s.pendingRequests),
        requestQueue := s.requestQueue ++ [u] } := by
    rw [hs1]
    simp only [processTweet, Bool.false_eq_true, if_false]
    rw [alGet_alSet_self]
  have hget : alGet u (processTweet false u c2
      (processTweet false u c1 s)).pendingRequests = some [c1, c2] := by
    rw [hs2]
    exact alGet_alSet_self u [c1, c2] _
  refine ⟨hget, by rw [hs2], ?_, ?_, ?_⟩
  · rw [hs2]
    have h0 : s.requestQueue.count u = 0 := List.count_eq_zero.mpr hnotmem
    simp [List.count_append, h0]
  · simp only [resolveSuccess, hget]
    simp [hpres1, hpres2]
  · simp only [resolveSuccess, hget]
    exact alGet_alDelete_self u _

/-- Witness for C6: two concrete concurrent requests for "alice" from the
empty pipeline state. -/
theorem c6_request_coalescing_witness :
    (processTweet false "alice" 1 (processTweet false "alice" 0
        ({} : PipelineState))).requestQueue.count "alice" = 1 ∧
    (resolveSuccess "alice" { username := "alice" } (fun _ => true)
        (processTweet false "alice" 1 (processTweet false "alice" 0
          ({} : PipelineState)))).2 =
      [(0, { username := "alice" }), (1, { username := "alice" })] :=
  ⟨(c6_request_coalescing {} "alice" 0 1 { username := "alice" }
      (fun _ => true) rfl rfl (by decide) rfl rfl).2.2.1,
   (c6_request_coalescing {} "alice" 0 1 { username := "alice" }
      (fun _ => true) rfl rfl (by decide) rfl rfl).2.2.2.1⟩

/-- C9: `handleServerSignedTask` performs the fetch (and decrements the
budget) only when the local node is among the task's selected validators,
the task is at most 5 minutes old, the injected signature verification
succeeds, and the (lazily replenished) validator budget is positive; a
task failing any of these conditions is dropped with no fetch and no
state change. -/
theorem c9_task_gating (myNodeId : String) (now : Int) (pv : Bool)
    (verify : ValidationTask → Bool) (fr : Option FreshData)
    (task : ValidationTask) (s : GunState) :
    ((handleServerSignedTask myNodeId now pv verify fr task s).2.1 = true →
      (∃ vs, task.selectedValidators = some vs ∧
        vs.contains myNodeId = true) ∧
      now - task.timestamp ≤ 5 * 60 * 1000 ∧ verify task = true ∧
      (resetBudgetIfNeeded now s).validatorBudget > 0 ∧
      (handleServerSignedTask myNodeId now pv verify fr
          task s).1.validatorBudget =
        (resetBudgetIfNeeded now s).validatorBudget - 1) ∧
    (¬((∃ vs, task.selectedValidators = some vs ∧
          vs.contains myNodeId = true) ∧
        now - task.timestamp ≤ 5 * 60 * 1000 ∧ verify task = true ∧
        (resetBudgetIfNeeded now s).validatorBudget > 0) →
      (handleServerSignedTask myNodeId now pv verify fr task s).2.1 =
        false ∧
      (handleServerSignedTask myNodeId now pv verify fr task s).1 = s) := by
  rcases hsel : task.selectedValidators with _ | vs
  · refine ⟨?_, ?_⟩
    · intro hf
      simp [handleServerSignedTask, hsel] at hf
    · intro _
      simp [handleServerSignedTask, hsel]
  · by_cases hcont : vs.contains myNodeId = true
    · by_cases hts : now - task.timestamp ≤ 5 * 60 * 1000
      · by_cases hver : verify task = true
        · by_cases hbud : (resetBudgetIfNeeded now s).validatorBudget > 0
          · -- all four gate conditions hold
            by_cases hpv : pv = true
            · have hrun : handleServerSignedTask myNodeId now pv verify fr
                  task s =
                  ({ resetBudgetIfNeeded now s with
                      validatorBudget :=
                        (resetBudgetIfNeeded now s).validatorBudget - 1 },
                   true,
                   match fr with
                   | some fd => jsStrTruthy fd.createdAt
                   | none => false) := by
                simp only [handleServerSignedTask, hsel, hcont, hpv, hver,
                  Bool.not_true, Bool.false_eq_true, if_false,
                  if_neg (by omega : ¬now - task.timestamp > 5 * 60 * 1000)]
                simp only [canValidate, consumeValidatorBudget,
                  resetBudgetIfNeeded_idem]
                simp [hbud]
              refine ⟨?_, ?_⟩
              · intro _
                exact ⟨⟨vs, rfl, hcont⟩, hts, hver, hbud, by rw [hrun]⟩
              · intro hnot
                exact absurd ⟨⟨vs, rfl, hcont⟩, hts, hver, hbud⟩ hnot
            · -- peer validation disabled: dropped before any state change
              have hrun : handleServerSignedTask myNodeId now pv verify fr
                  task s = (s, false, false) := by
                simp [handleServerSignedTask, hsel, hcont, hpv,
                  if_neg (by omega : ¬now - task.timestamp > 5 * 60 * 1000)]
              refine ⟨?_, ?_⟩
              · intro hf
                rw [hrun] at hf
                cases hf
              · intro _
                rw [hrun]
                exact ⟨rfl, rfl⟩
          · -- budget exhausted: the lazy reset cannot have fired
            have hsame : resetBudgetIfNeeded now s = s := by
              unfold resetBudgetIfNeeded at hbud ⊢
              split at hbud
              · simp [VALIDATOR_BUDGET_PER_HOUR] at hbud
              · simp_all
            have hrun : handleServerSignedTask myNodeId now pv verify fr
                task s = (s, false, false) ∨
                handleServerSignedTask myNodeId now pv verify fr task s =
                  (resetBudgetIfNeeded now s, false, false) := by
              by_cases hpv : pv = true
              · refine Or.inr ?_
                simp only [handleServerSignedTask, hsel, hcont, hpv, hver,
                  Bool.not_true, Bool.false_eq_true, if_false,
                  if_neg (by omega : ¬now - task.timestamp > 5 * 60 * 1000)]
                simp [canValidate, hbud]
              · refine Or.inl ?_
                simp [handleServerSignedTask, hsel, hcont, hpv,
                  if_neg (by omega : ¬now - task.timestamp > 5 * 60 * 1000)]
            refine ⟨?_, ?_⟩
            · intro hf
              rcases hrun with h | h <;> rw [h] at hf <;> cases hf
            · intro _
              rcases hrun with h | h <;> rw [h]
              · exact ⟨rfl, rfl⟩
              · exact ⟨rfl, hsame⟩
        · have hrun : handleServerSignedTask myNodeId now pv verify fr
              task s = (s, false, false) := by
            simp [handleServerSignedTask, hsel, hcont, hver,
              if_neg (by omega : ¬now - task.timestamp > 5 * 60 * 1000)]
          refine ⟨?_, ?_⟩
          · intro hf
            rw [hrun] at hf
            cases hf
          · intro _
            rw [hrun]
            exact ⟨rfl, rfl⟩
      · have hrun : handleServerSignedTask myNodeId now pv verify fr
            task s = (s, false, false) := by
          simp only [handleServerSignedTask, hsel]
          simp
          intro _ hle
          exact absurd hle (by omega)
        refine ⟨?_, ?_⟩
        · intro hf
          rw [hrun] at hf
          cases hf
        · intro _
          rw [hrun]
          exact ⟨rfl, rfl⟩
    · have hrun : handleServerSignedTask myNodeId now pv verify fr
          task s = (s, false, false) := by
        simp only [handleServerSignedTask, hsel]
        simp
        intro hmem
        exact absurd hmem (by simpa [List.elem_iff] using hcont)
      refine ⟨?_, ?_⟩
      · intro hf
        rw [hrun] at hf
        cases hf
      · intro _
        rw [hrun]
        exact ⟨rfl, rfl⟩

/-- C4 counterexample: a record with `createdAt`, `connectedVia`,
`accountBasedIn` all null, not government-verified and with no tier is
accepted by `cache.set` and returned by `cache.get` when it carries
`error: true` and a display name differing from its username, so the
claim's universal statement (and its "iff" validity characterisation)
fails on this input. -/
theorem c4_escape_hatch_returned :
    (cacheGet 0 "alice"
        (cacheSet 0 "alice" escapeErrorRecord true false {})).1 =
      some { data := escapeErrorRecord, timestamp := 0,
             lastAccessed := some 0, cacheSource := some "memory" } ∧
    escapeErrorRecord.createdAt = none ∧
    escapeErrorRecord.connectedVia = none ∧
    escapeErrorRecord.accountBasedIn = none ∧
    escapeErrorRecord.isGovernmentVerified = false ∧
    escapeErrorRecord.tier = none ∧
    isValidCacheEntry escapeErrorRecord = true := by
  exact ⟨by decide, rfl, rfl, rfl, rfl, rfl, by decide⟩

/-- C4 (amended): a record with all four signals null and no tier is
never returned by `cache.get` after `cache.set` — rejected at write time
or purged at read time — unless it is explicitly marked as an error with
a display name differing from its username; accordingly the validity
predicate holds iff the record has `createdAt`, `connectedVia`,
`accountBasedIn`, `isGovernmentVerified`, a previously assigned `tier`,
or that error-with-foreign-display-name escape. -/
theorem c4_amended_silent_failure_never_returned (t1 t2 : Int)
    (username : String) (r : CacheRecord) (s : CacheState)
    (skip roll : Bool)
    (h1 : r.createdAt = none) (h2 : r.connectedVia = none)
    (h3 : r.accountBasedIn = none) (h4 : r.isGovernmentVerified = false)
    (h5 : r.tier = none)
    (hesc : (r.error &&
      (match r.displayName with
       | some dn => (!jsIsEmpty dn) && dn != r.username
       | none => false)) = false)
    (hm : alGet (jsToLower username) s.memoryCache = none)
    (hd : alGet (jsToLower username) s.db = none)
    (hr : alGet (jsToLower username) s.remote = none)
    (hlen : s.db.length ≤ MAX_ENTRIES) :
    (cacheGet t2 username (cacheSet t1 username r skip roll s)).1 = none ∧
    ∀ d : CacheRecord, isValidCacheEntry d = validCacheSpecAmended d := by
  have hiff : ∀ d : CacheRecord,
      isValidCacheEntry d = validCacheSpecAmended d := by
    intro d
    unfold isValidCacheEntry validCacheSpecAmended
    split_ifs with g c v ab t e <;> simp_all
  have hvalid : isValidCacheEntry r = false := by
    simp [isValidCacheEntry, h1, h2, h3, h4, h5, jsStrTruthy, hesc]
  refine ⟨?_, hiff⟩
  by_cases hskip : (skip && r.rateLimited) = true
  · rw [show cacheSet t1 username r skip roll s = s from by
      simp only [cacheSet]; rw [if_pos hskip]]
    exact cacheGet_fst_of_all_none t2 username s hm hd hr
  · by_cases herr : r.error = true
    · -- the error exception: written, then purged (or expired) on read
      have hnoev : checkAndEvict
          { s with memoryCache :=
                     addToMemoryCache (jsToLower username)
                       { data := r, timestamp := t1,
                         lastAccessed := some t1 }
                       s.memoryCache } =
          { s with memoryCache :=
                     addToMemoryCache (jsToLower username)
                       { data := r, timestamp := t1,
                         lastAccessed := some t1 }
                       s.memoryCache } := by
        simp only [checkAndEvict]
        split
        · next h => exact absurd (by simpa using h) (not_lt.mpr hlen)
        · rfl
      have hset : cacheSet t1 username r skip roll s =
          { s with memoryCache :=
                     addToMemoryCache (jsToLower username)
                       { data := r, timestamp := t1,
                         lastAccessed := some t1 }
                       s.memoryCache,
                   db := alSet (jsToLower username)
                          { data := r, timestamp := t1,
                            lastAccessed := some t1 }
                          s.db } := by
        simp only [cacheSet]
        rw [if_neg hskip, if_neg (by simp [herr])]
        cases roll
        · simp only [Bool.false_eq_true, if_false]
          simp [remoteSet, herr]
        · simp only [if_true]
          rw [hnoev]
          simp [remoteSet, herr]
      rw [hset]
      have hmemget : alGet (jsToLower username)
          (addToMemoryCache (jsToLower username)
            { data := r, timestamp := t1, lastAccessed := some t1 }
            s.memoryCache) =
          some { data := r, timestamp := t1, lastAccessed := some t1 } :=
        alGet_addToMemoryCache_self _ _ _
      simp only [cacheGet, hmemget]
      by_cases hage : t2 - t1 ≤
          (if r.error = true then ERROR_CACHE_DURATION else CACHE_DURATION)
      · rw [if_pos hage, if_pos (by simp [hvalid])]
      · rw [if_neg hage]
        have hdbget : alGet (jsToLower username)
            (alSet (jsToLower username)
              { data := r, timestamp := t1, lastAccessed := some t1 }
              s.db) =
            some { data := r, timestamp := t1, lastAccessed := some t1 } :=
          alGet_alSet_self _ _ _
        simp only [cacheGetTier2, hdbget]
        rw [if_pos (by exact not_le.mp hage)]
        exact cacheGetTier3_fst_of_none t2 _ _ hr
    · -- invalid and not an error: the write is refused outright
      rw [show cacheSet t1 username r skip roll s = s from by
        simp only [cacheSet]
        rw [if_neg hskip, if_pos (by simp [hvalid, herr])]]
      exact cacheGet_fst_of_all_none t2 username s hm hd hr

/-- Witness for C4 (amended) at a concrete error record whose display
name equals its username, written to the empty cache. -/
theorem c4_amended_witness :
    (cacheGet 0 "bob"
        (cacheSet 0 "bob" errorSelfNameRecord false false {})).1 = none ∧
    isValidCacheEntry errorSelfNameRecord =
      validCacheSpecAmended errorSelfNameRecord :=
  ⟨(c4_amended_silent_failure_never_returned 0 0 "bob" errorSelfNameRecord
      {} false false rfl rfl rfl rfl rfl (by decide) rfl rfl rfl
      (by decide)).1,
   (c4_amended_silent_failure_never_returned 0 0 "bob" errorSelfNameRecord
      {} false false rfl rfl rfl rfl rfl (by decide) rfl rfl rfl
      (by decide)).2 errorSelfNameRecord⟩

/-- C7 counterexample: with an entry present only in the IndexedDB tier,
two back-to-back `cache.get` calls return records that differ in the
`_cacheSource` annotation ("indexeddb" vs "memory") while their
`lastAccessed` values are equal, so the two reads are not byte-identical
up to the `lastAccessed` bump. -/
theorem c7_cacheSource_differs :
    (cacheGet 1000 "bob" dbOnlyState).1 =
      some { data := dbOnlyEntry.data, timestamp := 500,
             lastAccessed := some 1000,
             cacheSource := some "indexeddb" } ∧
    (cacheGet 1000 "bob" (cacheGet 1000 "bob" dbOnlyState).2).1 =
      some { data := dbOnlyEntry.data, timestamp := 500,
             lastAccessed := some 1000, cacheSource := some "memory" } ∧
    (cacheGet 1000 "bob" dbOnlyState).1 ≠
      (cacheGet 1000 "bob" (cacheGet 1000 "bob" dbOnlyState).2).1 ∧
    ((cacheGet 1000 "bob" dbOnlyState).1.map CacheEntry.lastAccessed) =
      ((cacheGet 1000 "bob"
        (cacheGet 1000 "bob" dbOnlyState).2).1.map
          CacheEntry.lastAccessed) := by
  exact ⟨by decide, by decide, by decide, by decide⟩

/-- C7 (amended): with the remote tier disabled, two consecutive
`cache.get` calls at the same instant with no intervening `cache.set`
return records that are identical except for the `_cacheSource`
provenance annotation, and both carry the (non-decreasing) `lastAccessed`
bump to the read time. -/
theorem c7_amended_idempotent_read (now : Int) (u : String)
    (s : CacheState) (a b : CacheEntry)
    (hrem : s.useRemoteCache = false)
    (h1 : (cacheGet now u s).1 = some a)
    (h2 : (cacheGet now u (cacheGet now u s).2).1 = some b) :
    eraseSource a = eraseSource b ∧ a.lastAccessed = some now ∧
      b.lastAccessed = some now := by
  obtain ⟨hmem, hfresh, hvalid, hla⟩ := cacheGet_some_inv now u s a hrem h1
  have hb := cacheGet_memory_hit now u _ a hmem hfresh hvalid
  rw [hb] at h2
  injection h2 with h2
  subst h2
  refine ⟨?_, hla, rfl⟩
  cases a with
  | mk data ts la src =>
    simp only [eraseSource]
    simp only at hla
    rw [hla]

/-- Witness for C7 (amended): the two concrete back-to-back reads of
`dbOnlyState` agree up to the provenance annotation. -/
theorem c7_amended_witness :
    eraseSource { data := dbOnlyEntry.data, timestamp := 500,
                  lastAccessed := some 1000,
                  cacheSource := some "indexeddb" } =
      eraseSource { data := dbOnlyEntry.data, timestamp := 500,
                    lastAccessed := some 1000,
                    cacheSource := some "memory" } ∧
    ({ data := dbOnlyEntry.data, timestamp := 500,
       lastAccessed := some 1000,
       cacheSource := some "indexeddb" } : CacheEntry).lastAccessed =
      some 1000 ∧
    ({ data := dbOnlyEntry.data, timestamp := 500,
       lastAccessed := some 1000,
       cacheSource := some "memory" } : CacheEntry).lastAccessed =
      some 1000 :=
  c7_amended_idempotent_read 1000 "bob" dbOnlyState _ _ rfl (by decide)
    (by decide)

/-- Witness for C9: a concrete accepted task (selected validator, fresh
timestamp, verifying signature, positive budget) is fetched and costs one
budget unit. -/
theorem c9_task_gating_witness :
    (∃ vs, demoTask.selectedValidators = some vs ∧
      vs.contains "node_a" = true) ∧
    (1000 : Int) - demoTask.timestamp ≤ 5 * 60 * 1000 ∧
    (fun _ : ValidationTask => true) demoTask = true ∧
    (resetBudgetIfNeeded 1000 ({} : GunState)).validatorBudget > 0 ∧
    (handleServerSignedTask "node_a" 1000 true (fun _ => true) none
        demoTask ({} : GunState)).1.validatorBudget =
      (resetBudgetIfNeeded 1000 ({} : GunState)).validatorBudget - 1 :=
  (c9_task_gating "node_a" 1000 true (fun _ => true) none demoTask {}).1 rfl

end Xcred
